import Mathlib

/-!
Shallow embedding of the `live-pce` database connectivity layer:

* `getPrismaClient` — the lazy, environment-driven client provider
  (source: `src/unnamed/part_002`), with its normalization of
  `DATABASE_URL` (trim + strip one surrounding quote character on each
  side), prefix classification (`file:` / `postgresql://` / `postgres://`
  / other), pooling defaults, postgres-adapter fallback, and the global
  cache.
* `GET` — the `/api/health` handler (source: `src/unnamed/part_000`),
  with the 10-second race against the liveness query, the
  `client_users` table check, and the error-classification catch block.
* `getDatabaseUrl` — the Neon-variant provider's URL rewriting
  (source: `src/lib/prisma.ts`): forcing `sslmode=require`, deleting
  `channel_binding`, and the regex fallback for unparseable URLs.

External effects (the ORM, the platform `URL` parser, the wall clock,
the database) are passed in as explicit parameters; machine behavior of
JavaScript strings (falsiness of the empty string, `||` defaults,
`trim`, `startsWith`, anchored regex replacement) is modelled on
`List Char` directly.
-/

set_option maxRecDepth 8192

namespace LivePce

/-- JavaScript whitespace for `String.prototype.trim` (ASCII subset:
space, tab, LF, CR, VT, FF — the characters that can occur in a
connection-string environment variable). -/
def isJsWs (c : Char) : Bool :=
  c == ' ' || c == '\t' || c == '\n' || c == '\r' || c == '\x0b' || c == '\x0c'

/-- Model of `s.trim()`: drop leading and trailing whitespace. -/
def jsTrim (s : String) : String :=
  String.mk (((s.data.dropWhile isJsWs).reverse.dropWhile isJsWs).reverse)

/-- Model of `s.startsWith(pre)`. -/
def strStartsWith (s pre : String) : Bool :=
  pre.data.isPrefixOf s.data

/-- Model of `s.includes(pat)` (substring containment). -/
def hasSubstr (pat : List Char) : List Char → Bool
  | [] => pat.isEmpty
  | c :: rest => pat.isPrefixOf (c :: rest) || hasSubstr pat rest

/-- A quote character, as matched by the regex class `["']`. -/
def isQuote (c : Char) : Bool := c == '"' || c == '\''

/-- Drop one trailing quote character, if present (the `["']$`
alternative of the anchored regex). -/
def dropTrailingQuote (l : List Char) : List Char :=
  match l.getLast? with
  | some c => if isQuote c then l.dropLast else l
  | none => l

/-- Model of `s.replace(/^["']|["']$/g, '')`: remove one leading quote
character if present, and one trailing quote character if present and
not already consumed by the leading match. -/
def stripQuotes (s : String) : String :=
  match s.data with
  | [] => ""
  | c :: rest =>
    if isQuote c then String.mk (dropTrailingQuote rest)
    else String.mk (dropTrailingQuote (c :: rest))

/-- The normalization performed on `DATABASE_URL` in
`src/unnamed/part_002` lines 22-25: `String(raw).trim()`, then, when
the trimmed string is non-empty (truthy), strip surrounding quotes. -/
def normalizeUrl (s : String) : String :=
  let t := jsTrim s
  if t.isEmpty then t else stripQuotes t

/-- JavaScript truthiness of an optional string (`undefined` and `""`
are falsy). -/
def jsTruthy (o : Option String) : Bool :=
  match o with
  | some s => !s.isEmpty
  | none => false

/-- Model of `a || d` for an optional string `a` and default `d`
(the default is taken when `a` is `undefined` or empty). -/
def jsOr (o : Option String) (d : String) : String :=
  match o with
  | some s => if s.isEmpty then d else s
  | none => d

/-- A thrown JavaScript error, as observed by the catch blocks:
`message` and the Prisma `code` property (absent on plain `Error`s). -/
structure JsError where
  message : Option String
  code : Option String
  deriving Repr, DecidableEq

/-- The `pg` `Pool` configuration built in `src/unnamed/part_002`
lines 78-83. -/
structure PoolConfig where
  connectionString : String
  max : Nat
  idleTimeoutMillis : Nat
  connectionTimeoutMillis : Nat
  deriving Repr, DecidableEq

/-- Which engine adapter / datasource the constructed `PrismaClient`
was given.  `defaultEnvClient` records that no explicit URL was passed:
the default client reads `DATABASE_URL` from the process environment
itself, so we record that raw environment value. -/
inductive AdapterChoice where
  | sqliteAdapter (dbPath : String)
  | pgAdapter (pool : PoolConfig)
  | pgFallbackUrl (url : String)
  | defaultEnvClient (envUrl : Option String)
  deriving Repr, DecidableEq

/-- The options a `PrismaClient` was constructed with. -/
structure ClientConfig where
  adapter : AdapterChoice
  log : List String
  deriving Repr, DecidableEq

/-- A constructed client handle.  `id` is a construction counter so
that referential identity of handles is expressible. -/
structure Client where
  id : Nat
  config : ClientConfig
  deriving Repr, DecidableEq

/-- The `globalForPrisma` process-wide state: the cached client (if
any) plus the construction counter backing `Client.id`. -/
structure GlobalState where
  prismaCache : Option Client
  nextId : Nat
  deriving Repr, DecidableEq

/-- The `log` option: `['error', 'warn']` in development, `[]`
otherwise (`src/unnamed/part_002` lines 62, 89, 100, 106). -/
def logOpts (nodeEnv : Option String) : List String :=
  if nodeEnv == some "development" then ["error", "warn"] else []

/-- The SQLite path extraction of `src/unnamed/part_002` lines 44-50,
applied to a URL already known to start with `file:`: drop the `file:`
scheme, drop leading slashes, strip quotes again, drop a leading `./`.
(The final `path.resolve(process.cwd(), dbPath)` is the platform path
library; the adapter receives the resolution of this value.) -/
def sqliteDbPath (url : String) : String :=
  let p := String.mk ((url.drop 5).data.dropWhile (fun c => c == '/'))
  let p := stripQuotes p
  if strStartsWith p "./" then p.drop 2 else p

/-- Error thrown when `DATABASE_URL` is absent or falsy
(`src/unnamed/part_002` line 16). -/
def notSetMsg : String :=
  "DATABASE_URL environment variable is not set. Please add it to your .env file."

/-- Error thrown when `DATABASE_URL` is empty after normalization
(`src/unnamed/part_002` line 31). -/
def emptyMsg : String := "DATABASE_URL is empty after parsing."

/-- The branch of `getPrismaClient` that constructs a client from the
normalized URL (`src/unnamed/part_002` lines 33-108).  `sqliteOk` and
`pgOk` say whether the respective adapter constructions (the bodies of
the two `try` blocks) succeed; a failing SQLite construction rethrows,
a failing postgres construction falls back to a default client
configured with `datasources.db.url = databaseUrl`. -/
def buildClient (databaseUrl : String) (envRaw : Option String) (nodeEnv : Option String)
    (sqliteOk pgOk : Bool) : Except JsError ClientConfig :=
  if !databaseUrl.isEmpty && strStartsWith databaseUrl "file:" then
    if sqliteOk then
      .ok ⟨.sqliteAdapter (sqliteDbPath databaseUrl), logOpts nodeEnv⟩
    else
      .error ⟨some "Failed to initialize Prisma with SQLite: adapter construction failed", none⟩
  else if strStartsWith databaseUrl "postgresql://" || strStartsWith databaseUrl "postgres://" then
    if pgOk then
      .ok ⟨.pgAdapter ⟨databaseUrl, 10, 30000, 10000⟩, logOpts nodeEnv⟩
    else
      .ok ⟨.pgFallbackUrl databaseUrl, logOpts nodeEnv⟩
  else
    .ok ⟨.defaultEnvClient envRaw, logOpts nodeEnv⟩

/-- `getPrismaClient()` (`src/unnamed/part_002` lines 8-115): return
the cached client if present; otherwise read `DATABASE_URL`, throw if
absent/falsy, normalize, throw if empty, construct a client by prefix
classification, cache it, and return it.  The pair returned is (result,
state after the call); every `throw` leaves the state untouched.  The
`defaultEnvClient` branch records the raw environment value the default
client would itself read. -/
def getPrismaClient (databaseUrl : Option String) (nodeEnv : Option String)
    (sqliteOk pgOk : Bool) (g : GlobalState) :
    Except JsError Client × GlobalState :=
  match g.prismaCache with
  | some c => (.ok c, g)
  | none =>
    match databaseUrl with
    | none => (.error ⟨some notSetMsg, none⟩, g)
    | some raw =>
      if raw.isEmpty then (.error ⟨some notSetMsg, none⟩, g)
      else
        let url := normalizeUrl raw
        if url.isEmpty then (.error ⟨some emptyMsg, none⟩, g)
        else
          match buildClient url databaseUrl nodeEnv sqliteOk pgOk with
          | .error e => (.error e, g)
          | .ok cfg =>
            let c : Client := ⟨g.nextId, cfg⟩
            (.ok c, { prismaCache := some c, nextId := g.nextId + 1 })

/-- The environment visible to the health handler: `NODE_ENV`,
`DATABASE_URL`, and the value `new Date().toISOString()` produces. -/
structure HealthEnv where
  nodeEnv : Option String
  databaseUrl : Option String
  now : String
  deriving Repr, DecidableEq

/-- The JSON body assembled by the health handler.  Optional fields are
`none` when the corresponding property is not set on the object. -/
structure HealthBody where
  status : String
  database : String
  tables : Option String
  environment : Option String
  hasDatabaseUrl : Bool
  timestamp : String
  error : Option String
  code : Option String
  prismaCode : Option String
  suggestion : Option String
  deriving Repr, DecidableEq

/-- An HTTP response from the handler: status code plus JSON body. -/
structure HealthResponse where
  status : Nat
  body : HealthBody
  deriving Repr, DecidableEq

/-- Suggestion attached for codes `P1001` / `P1017`
(`src/unnamed/part_000` line 72). -/
def connectivitySuggestion : String :=
  "Check database connection string and network connectivity"

/-- Suggestion attached for code `P1000` (`src/unnamed/part_000`
line 74). -/
def credentialsSuggestion : String := "Check database credentials"

/-- The catch block of the health handler (`src/unnamed/part_000`
lines 45-78): a 503 response carrying `error.message || 'Unknown
error'`, `error.code || 'UNKNOWN'`, and — when `error.code` is truthy —
`prismaCode` plus a suggestion for the known connectivity /
authentication codes. -/
def errorResponse (env : HealthEnv) (e : JsError) : HealthResponse :=
  let base : HealthBody :=
    { status := "unhealthy"
      database := "disconnected"
      tables := none
      environment := none
      hasDatabaseUrl := jsTruthy env.databaseUrl
      timestamp := env.now
      error := some (jsOr e.message "Unknown error")
      code := some (jsOr e.code "UNKNOWN")
      prismaCode := none
      suggestion := none }
  if jsTruthy e.code then
    { status := 503
      body :=
        { base with
          prismaCode := e.code
          suggestion :=
            if e.code == some "P1001" || e.code == some "P1017" then
              some connectivitySuggestion
            else if e.code == some "P1000" then
              some credentialsSuggestion
            else none } }
  else
    { status := 503, body := base }

/-- The `Promise.race` of the liveness query against
`setTimeout(..., 10000)` (`src/unnamed/part_000` lines 13-18).
`queryTime` is the instant (ms) at which the query settles (`none` =
never); if it settles strictly before the 10000 ms timer fires, its
outcome wins, otherwise the timer's rejection wins.  The timeout is a
competing delayed rejection: the in-flight query is not cancelled, its
eventual outcome is simply ignored. -/
def raceWithTimeout (queryTime : Option Nat) (queryResult : Except JsError Unit) :
    Except JsError Unit :=
  match queryTime with
  | some t =>
    if t < 10000 then queryResult
    else .error ⟨some "Connection timeout", none⟩
  | none => .error ⟨some "Connection timeout", none⟩

/-- The healthy 200 response (`src/unnamed/part_000` lines 35-44);
`rows` is the result set of the `information_schema.tables` existence
query, from which `tableExists[0]?.exists ?? false` is read. -/
def healthyResponse (env : HealthEnv) (rows : List Bool) : HealthResponse :=
  { status := 200
    body :=
      { status := "healthy"
        database := "connected"
        tables := some (if rows.head?.getD false then "exists" else "missing")
        environment := env.nodeEnv
        hasDatabaseUrl := jsTruthy env.databaseUrl
        timestamp := env.now
        error := none
        code := none
        prismaCode := none
        suggestion := none } }

/-- The `GET /api/health` handler (`src/unnamed/part_000` lines
10-80).  `acquire` is the outcome of touching the lazily-initialized
client (the proxy may throw a wrapped configuration error);
`queryTime`/`queryResult` describe the liveness query raced against the
timeout; `tableResult` is the outcome of the table-existence query.
Every failure lands in the catch block; no path raises. -/
def GET (env : HealthEnv) (acquire : Except JsError Unit)
    (queryTime : Option Nat) (queryResult : Except JsError Unit)
    (tableResult : Except JsError (List Bool)) : HealthResponse :=
  match acquire with
  | .error e => errorResponse env e
  | .ok _ =>
    match raceWithTimeout queryTime queryResult with
    | .error e => errorResponse env e
    | .ok _ =>
      match tableResult with
      | .error e => errorResponse env e
      | .ok rows => healthyResponse env rows

/-- The proxy wrapper around `getPrismaClient`
(`src/unnamed/part_002` lines 118-133): a property access initializes
the client lazily; an initialization error is rethrown with the added
context `Failed to initialize database connection: ` followed by the
original message. -/
def proxyGet (databaseUrl nodeEnv : Option String) (sqliteOk pgOk : Bool)
    (g : GlobalState) : Except JsError Client × GlobalState :=
  match getPrismaClient databaseUrl nodeEnv sqliteOk pgOk g with
  | (.ok c, g') => (.ok c, g')
  | (.error e, g') =>
    (.error ⟨some ("Failed to initialize database connection: " ++ jsOr e.message "undefined"), none⟩, g')

/-- The health endpoint composed with the lazy client provider: the
first property access on the proxied client (`prisma.$queryRaw`)
triggers initialization inside the handler's `try`, so provider errors
flow into the catch block. -/
def healthEndpoint (env : HealthEnv) (g : GlobalState) (sqliteOk pgOk : Bool)
    (queryTime : Option Nat) (queryResult : Except JsError Unit)
    (tableResult : Except JsError (List Bool)) : HealthResponse × GlobalState :=
  match proxyGet env.databaseUrl env.nodeEnv sqliteOk pgOk g with
  | (.error e, g') => (errorResponse env e, g')
  | (.ok _, g') => (GET env (.ok ()) queryTime queryResult tableResult, g')

/-- The literal `channel_binding=` matched by both fallback regexes in
`src/lib/prisma.ts` lines 41-42. -/
def cbLit : List Char := "channel_binding=".data

/-- `dropWhile` never lengthens a list (termination measure for the
regex scanners). -/
theorem lengthDropWhileLe (p : Char → Bool) (l : List Char) :
    (l.dropWhile p).length ≤ l.length := by
  induction l with
  | nil => simp [List.dropWhile]
  | cons a l ih =>
    simp only [List.dropWhile]
    split
    · exact Nat.le_trans ih (Nat.le_succ _)
    · exact Nat.le_refl _

/-- The optional `&?` at the end of the second regex: consume one `&`
when the remainder starts with it. -/
def dropAmp (l : List Char) : List Char :=
  match l with
  | c :: r => if c = '&' then r else c :: r
  | [] => []

/-- `dropAmp` never lengthens a list. -/
theorem lengthDropAmpLe (l : List Char) : (dropAmp l).length ≤ l.length := by
  match l with
  | [] => simp [dropAmp]
  | c :: r =>
    simp only [dropAmp]
    split
    · exact Nat.le_succ _
    · exact Nat.le_refl _

/-- One pass of `.replace(/[&?]channel_binding=[^&]*/g, '')`: scanning
left to right, an occurrence of `&` or `?` followed by
`channel_binding=` and a maximal run of non-`&` characters is removed;
everything else is kept. -/
def scan1 : List Char → List Char
  | [] => []
  | c :: rest =>
    if (c == '&' || c == '?') && cbLit.isPrefixOf rest then
      scan1 ((rest.drop 16).dropWhile (fun ch => ch != '&'))
    else
      c :: scan1 rest
termination_by l => l.length
decreasing_by
  · have h1 : ((rest.drop 16).dropWhile (fun ch => ch != '&')).length ≤ (rest.drop 16).length :=
      lengthDropWhileLe _ _
    have h2 : (rest.drop 16).length ≤ rest.length := by
      simp [List.length_drop]
    simp only [List.length_cons]
    omega
  · simp

/-- One pass of `.replace(/channel_binding=[^&]*&?/g, '')`: an
occurrence of `channel_binding=` anywhere, a maximal run of non-`&`
characters, and one optional trailing `&` are removed. -/
def scan2 : List Char → List Char
  | [] => []
  | c :: rest =>
    if cbLit.isPrefixOf (c :: rest) then
      scan2 (dropAmp (((c :: rest).drop 16).dropWhile (fun ch => ch != '&')))
    else
      c :: scan2 rest
termination_by l => l.length
decreasing_by
  · have h1 : (((c :: rest).drop 16).dropWhile (fun ch => ch != '&')).length ≤
        ((c :: rest).drop 16).length := lengthDropWhileLe _ _
    have h2 : ((c :: rest).drop 16).length = (c :: rest).length - 16 := List.length_drop ..
    have h3 := lengthDropAmpLe (((c :: rest).drop 16).dropWhile (fun ch => ch != '&'))
    simp only [List.length_cons] at *
    omega
  · simp

/-- The fallback cleanup for unparseable URLs
(`src/lib/prisma.ts` lines 40-42): both regex replacements in order. -/
def regexCleanup (s : String) : String := String.mk (scan2 (scan1 s.data))

/-- The WHATWG `URL` object as used by `getDatabaseUrl`: everything up
to the query string, plus the ordered search parameters.  `toString`
re-serializes the parameters after `base`. -/
structure UrlObj where
  base : String
  params : List (String × String)
  deriving Repr, DecidableEq

/-- `urlObj.searchParams.has(k)`. -/
def hasParam (u : UrlObj) (k : String) : Bool :=
  u.params.any (fun p => p.1 == k)

/-- `urlObj.searchParams.delete(k)`: remove every pair named `k`. -/
def deleteParam (u : UrlObj) (k : String) : UrlObj :=
  { u with params := u.params.filter (fun p => p.1 != k) }

/-- `urlObj.searchParams.set(k, v)` in the only situation the source
calls it (when `k` is absent): append the pair. -/
def appendParam (u : UrlObj) (k v : String) : UrlObj :=
  { u with params := u.params ++ [(k, v)] }

/-- `urlObj.toString()`: base, then `?k=v&...` when parameters
remain. -/
def urlToString (u : UrlObj) : String :=
  if u.params.isEmpty then u.base
  else u.base ++ "?" ++ String.intercalate "&" (u.params.map (fun p => p.1 ++ "=" ++ p.2))

/-- `getDatabaseUrl()` of the Neon-variant provider
(`src/lib/prisma.ts` lines 8-48): throw when `DATABASE_URL` is falsy;
trim; try `new URL(...)` (the platform parser, passed in as `parse`);
on success force `sslmode=require` when absent and delete any
`channel_binding` parameter, re-serializing the result; on parse
failure fall back to the two-regex removal of `channel_binding`, and
only when the string mentions it at all. -/
def getDatabaseUrl (envUrl : Option String) (parse : String → Option UrlObj) :
    Except String String :=
  match envUrl with
  | none => .error "DATABASE_URL environment variable is not set"
  | some url =>
    if url.isEmpty then .error "DATABASE_URL environment variable is not set"
    else
      let databaseUrl := jsTrim url
      match parse databaseUrl with
      | some urlObj =>
        let u1 := if hasParam urlObj "sslmode" then urlObj
                  else appendParam urlObj "sslmode" "require"
        let u2 := if hasParam u1 "channel_binding" then deleteParam u1 "channel_binding"
                  else u1
        .ok (urlToString u2)
      | none =>
        if hasSubstr "channel_binding".data databaseUrl.data then
          .ok (regexCleanup databaseUrl)
        else
          .ok databaseUrl

/-! ## Helper lemmas -/

/-- Two candidate prefixes that disagree on their first character
cannot both be prefixes of the same string. -/
theorem strStartsWithDisjoint (u pre₁ pre₂ : String) (a b : Char)
    (p q : List Char) (h1 : pre₁.data = a :: p) (h2 : pre₂.data = b :: q)
    (hab : a ≠ b) (h : strStartsWith u pre₁ = true) :
    strStartsWith u pre₂ = false := by
  unfold strStartsWith at *
  rw [h1] at h
  rw [h2]
  cases hu : u.data with
  | nil => rw [hu] at h; simp at h
  | cons c cs =>
    rw [hu] at h
    rw [List.isPrefixOf_cons₂] at h ⊢
    have hac : a = c := by
      have := (Bool.and_eq_true _ _).mp h |>.1
      exact eq_of_beq this
    subst hac
    simp only [Bool.and_eq_false_iff]
    left
    simp only [beq_eq_false_iff_ne, ne_eq]
    exact fun hba => hab hba.symm

/-- A string starting with `postgresql://` does not start with
`file:`. -/
theorem pgqlNotFile (u : String) (h : strStartsWith u "postgresql://" = true) :
    strStartsWith u "file:" = false :=
  strStartsWithDisjoint u "postgresql://" "file:" 'p' 'f' _ _ rfl rfl (by decide) h

/-- A string starting with `postgres://` does not start with
`file:`. -/
theorem pgNotFile (u : String) (h : strStartsWith u "postgres://" = true) :
    strStartsWith u "file:" = false :=
  strStartsWithDisjoint u "postgres://" "file:" 'p' 'f' _ _ rfl rfl (by decide) h

/-! ## Claims about the client provider (`src/unnamed/part_002`) -/

/-- C1: when `DATABASE_URL` is absent, or empty after trimming and
quote-stripping, `getPrismaClient` throws a configuration error whose
message states that the variable is not set or is empty, and the
process-wide cache is left untouched (no handle is stored or
returned). -/
theorem C1_missing_or_empty_url_raises_config_error
    (dbUrl nodeEnv : Option String) (sqliteOk pgOk : Bool) (g : GlobalState)
    (hc : g.prismaCache = none)
    (h : dbUrl = none ∨ ∃ u, dbUrl = some u ∧ normalizeUrl u = "") :
    ∃ e : JsError,
      getPrismaClient dbUrl nodeEnv sqliteOk pgOk g = (.error e, g) ∧
      (e.message = some notSetMsg ∨ e.message = some emptyMsg) := by
  rcases h with h | ⟨u, hu, hn⟩
  · subst h
    exact ⟨⟨some notSetMsg, none⟩, by simp [getPrismaClient, hc], .inl rfl⟩
  · subst hu
    by_cases he : u.isEmpty
    · exact ⟨⟨some notSetMsg, none⟩, by simp [getPrismaClient, hc, he], .inl rfl⟩
    · refine ⟨⟨some emptyMsg, none⟩, ?_, .inr rfl⟩
      simp [getPrismaClient, hc, he, hn,
        show ("" : String).isEmpty = true from rfl]

/-- C1 witness: a whitespace-and-quotes-only value is rejected from a
cold cache. -/
theorem C1_witness :
    ∃ e : JsError,
      getPrismaClient (some " \"\" ") none true true ⟨none, 0⟩ =
        (.error e, ⟨none, 0⟩) ∧
      (e.message = some notSetMsg ∨ e.message = some emptyMsg) :=
  C1_missing_or_empty_url_raises_config_error (some " \"\" ") none true true
    ⟨none, 0⟩ rfl (.inr ⟨" \"\" ", rfl, by decide⟩)

/-- C2: from a cold cache, a normalized non-empty connection string is
classified by prefix — `file:` selects the SQLite adapter,
`postgresql://` / `postgres://` select the pg adapter with the fixed
pooling parameters (max 10 clients, 30 s idle timeout, 10 s connection
timeout), and anything else selects the default client, which reads the
environment string as-is. -/
theorem C2_prefix_classification
    (u : String) (nodeEnv : Option String) (g : GlobalState)
    (hne : u.isEmpty = false) (hnorm : normalizeUrl u = u)
    (hc : g.prismaCache = none) :
    (strStartsWith u "file:" = true →
      ∀ pgOk, ∃ g', getPrismaClient (some u) nodeEnv true pgOk g =
        (.ok ⟨g.nextId, ⟨.sqliteAdapter (sqliteDbPath u), logOpts nodeEnv⟩⟩, g')) ∧
    ((strStartsWith u "postgresql://" = true ∨ strStartsWith u "postgres://" = true) →
      ∀ sqliteOk, ∃ g', getPrismaClient (some u) nodeEnv sqliteOk true g =
        (.ok ⟨g.nextId, ⟨.pgAdapter ⟨u, 10, 30000, 10000⟩, logOpts nodeEnv⟩⟩, g')) ∧
    (strStartsWith u "file:" = false → strStartsWith u "postgresql://" = false →
      strStartsWith u "postgres://" = false →
      ∀ sqliteOk pgOk, ∃ g', getPrismaClient (some u) nodeEnv sqliteOk pgOk g =
        (.ok ⟨g.nextId, ⟨.defaultEnvClient (some u), logOpts nodeEnv⟩⟩, g')) := by
  refine ⟨?_, ?_, ?_⟩
  · intro hf pgOk
    refine ⟨⟨some ⟨g.nextId, ⟨.sqliteAdapter (sqliteDbPath u), logOpts nodeEnv⟩⟩,
      g.nextId + 1⟩, ?_⟩
    simp [getPrismaClient, hc, hne, hnorm, buildClient, hf]
  · intro hpg sqliteOk
    have hf : strStartsWith u "file:" = false := by
      rcases hpg with h | h
      · exact pgqlNotFile u h
      · exact pgNotFile u h
    refine ⟨⟨some ⟨g.nextId, ⟨.pgAdapter ⟨u, 10, 30000, 10000⟩, logOpts nodeEnv⟩⟩,
      g.nextId + 1⟩, ?_⟩
    rcases hpg with h | h <;>
      simp [getPrismaClient, hc, hne, hnorm, buildClient, hf, h]
  · intro hf hp1 hp2 sqliteOk pgOk
    refine ⟨⟨some ⟨g.nextId, ⟨.defaultEnvClient (some u), logOpts nodeEnv⟩⟩,
      g.nextId + 1⟩, ?_⟩
    simp [getPrismaClient, hc, hne, hnorm, buildClient, hf, hp1, hp2]

/-- C2 witness: the three prefix classes at concrete strings. -/
theorem C2_witness :
    (∃ g', getPrismaClient (some "file:./dev.db") none true true ⟨none, 0⟩ =
      (.ok ⟨0, ⟨.sqliteAdapter "dev.db", []⟩⟩, g')) ∧
    (∃ g', getPrismaClient (some "postgres://h/db") none true true ⟨none, 0⟩ =
      (.ok ⟨0, ⟨.pgAdapter ⟨"postgres://h/db", 10, 30000, 10000⟩, []⟩⟩, g')) ∧
    (∃ g', getPrismaClient (some "mysql://h/db") none true true ⟨none, 0⟩ =
      (.ok ⟨0, ⟨.defaultEnvClient (some "mysql://h/db"), []⟩⟩, g')) :=
  ⟨(C2_prefix_classification "file:./dev.db" none ⟨none, 0⟩ (by decide)
      (by decide) rfl).1 (by decide) true,
   (C2_prefix_classification "postgres://h/db" none ⟨none, 0⟩ (by decide)
      (by decide) rfl).2.1 (.inr (by decide)) true,
   (C2_prefix_classification "mysql://h/db" none ⟨none, 0⟩ (by decide)
      (by decide) rfl).2.2 (by decide) (by decide) (by decide) true true⟩

/-- C3: once a call to the provider has succeeded, the returned handle
is cached, and every subsequent call — under any environment at all, so
in particular without re-validating the configuration — returns the
referentially-identical handle and leaves the state unchanged; the
cache holds at most this one handle. -/
theorem C3_cached_handle_reuse
    (dbUrl nodeEnv : Option String) (sqliteOk pgOk : Bool)
    (g g1 : GlobalState) (c : Client)
    (h : getPrismaClient dbUrl nodeEnv sqliteOk pgOk g = (.ok c, g1)) :
    g1.prismaCache = some c ∧
    ∀ dbUrl' nodeEnv' sqliteOk' pgOk',
      getPrismaClient dbUrl' nodeEnv' sqliteOk' pgOk' g1 = (.ok c, g1) := by
  have hcache : g1.prismaCache = some c := by
    cases hg : g.prismaCache with
    | some c0 =>
      simp [getPrismaClient, hg] at h
      rcases h with ⟨h1, h2⟩
      rw [← h2, hg, h1]
    | none =>
      rw [getPrismaClient.eq_def] at h
      rw [hg] at h
      cases dbUrl with
      | none => simp at h
      | some raw =>
        simp only at h
        split at h
        · simp at h
        · split at h
          · simp at h
          · cases hb : buildClient (normalizeUrl raw) (some raw) nodeEnv sqliteOk pgOk with
            | error e => rw [hb] at h; simp at h
            | ok cfg =>
              rw [hb] at h
              simp only [Prod.mk.injEq, Except.ok.injEq] at h
              rcases h with ⟨h1, h2⟩
              rw [← h2, ← h1]
  refine ⟨hcache, ?_⟩
  intro dbUrl' nodeEnv' sqliteOk' pgOk'
  simp [getPrismaClient, hcache]

/-- C3 witness: after a successful initialization with a `file:` URL,
a second call with no configuration at all still returns the same
handle and does not touch the state. -/
theorem C3_witness :
    getPrismaClient none none false false
      ⟨some ⟨0, ⟨.sqliteAdapter "dev.db", []⟩⟩, 1⟩ =
      (.ok ⟨0, ⟨.sqliteAdapter "dev.db", []⟩⟩,
       ⟨some ⟨0, ⟨.sqliteAdapter "dev.db", []⟩⟩, 1⟩) :=
  (C3_cached_handle_reuse (some "file:./dev.db") none true true ⟨none, 0⟩
      ⟨some ⟨0, ⟨.sqliteAdapter "dev.db", []⟩⟩, 1⟩
      ⟨0, ⟨.sqliteAdapter "dev.db", []⟩⟩ rfl).2 none none false false

/-- C4: when the postgres adapter construction throws, the error is
not propagated — the provider instead succeeds with a default client
configured with the connection string (ORM-managed pooling). -/
theorem C4_pg_adapter_failure_falls_back
    (u : String) (nodeEnv : Option String) (sqliteOk : Bool) (g : GlobalState)
    (hne : u.isEmpty = false) (hnorm : normalizeUrl u = u)
    (hc : g.prismaCache = none)
    (hpg : strStartsWith u "postgresql://" = true ∨ strStartsWith u "postgres://" = true) :
    ∃ g', getPrismaClient (some u) nodeEnv sqliteOk false g =
      (.ok ⟨g.nextId, ⟨.pgFallbackUrl u, logOpts nodeEnv⟩⟩, g') := by
  have hf : strStartsWith u "file:" = false := by
    rcases hpg with h | h
    · exact pgqlNotFile u h
    · exact pgNotFile u h
  refine ⟨⟨some ⟨g.nextId, ⟨.pgFallbackUrl u, logOpts nodeEnv⟩⟩, g.nextId + 1⟩, ?_⟩
  rcases hpg with h | h <;>
    simp [getPrismaClient, hc, hne, hnorm, buildClient, hf, h]

/-- C4 witness: a failing adapter construction at a concrete postgres
URL yields the fallback client, not an error. -/
theorem C4_witness :
    ∃ g', getPrismaClient (some "postgres://h/db") none true false ⟨none, 0⟩ =
      (.ok ⟨0, ⟨.pgFallbackUrl "postgres://h/db", []⟩⟩, g') :=
  C4_pg_adapter_failure_falls_back "postgres://h/db" none true ⟨none, 0⟩
    (by decide) (by decide) rfl (.inr (by decide))

/-! ## Claims about the health handler (`src/unnamed/part_000`) -/

/-- Every catch-block response is a 503 whose body carries the
unhealthy markers and the defaulted error/code diagnostics. -/
theorem errorResponseBasics (env : HealthEnv) (e : JsError) :
    (errorResponse env e).status = 503 ∧
    (errorResponse env e).body.status = "unhealthy" ∧
    (errorResponse env e).body.database = "disconnected" ∧
    (errorResponse env e).body.error = some (jsOr e.message "Unknown error") ∧
    (errorResponse env e).body.code = some (jsOr e.code "UNKNOWN") := by
  unfold errorResponse
  split <;> simp

/-- C5: the health handler never raises — it is a total function of
the outcomes of client acquisition, the raced liveness query, and the
metadata query, and every exception is converted into the catch
block's 503 response: an error from any of the three steps makes the
handler return `errorResponse env e`, which for every error is a 503
whose body carries `unhealthy`, `disconnected` and the error/code
diagnostic fields; when every step succeeds the handler returns the
200 healthy response. -/
theorem C5_handler_never_raises
    (env : HealthEnv) (acquire : Except JsError Unit) (queryTime : Option Nat)
    (queryResult : Except JsError Unit) (tableResult : Except JsError (List Bool)) :
    (∀ e, acquire = .error e →
      GET env acquire queryTime queryResult tableResult = errorResponse env e) ∧
    (∀ e, acquire = .ok () → raceWithTimeout queryTime queryResult = .error e →
      GET env acquire queryTime queryResult tableResult = errorResponse env e) ∧
    (∀ e, acquire = .ok () → raceWithTimeout queryTime queryResult = .ok () →
      tableResult = .error e →
      GET env acquire queryTime queryResult tableResult = errorResponse env e) ∧
    (∀ e : JsError, (errorResponse env e).status = 503 ∧
      (errorResponse env e).body.status = "unhealthy" ∧
      (errorResponse env e).body.database = "disconnected" ∧
      (errorResponse env e).body.error.isSome = true ∧
      (errorResponse env e).body.code.isSome = true) ∧
    (∀ rows, acquire = .ok () → raceWithTimeout queryTime queryResult = .ok () →
      tableResult = .ok rows →
      GET env acquire queryTime queryResult tableResult = healthyResponse env rows ∧
      (GET env acquire queryTime queryResult tableResult).status = 200) := by
  refine ⟨?_, ?_, ?_, ?_, ?_⟩
  · intro e ha
    subst ha
    rfl
  · intro e ha hr
    subst ha
    simp [GET, hr]
  · intro e ha hr ht
    subst ha ht
    simp [GET, hr]
  · intro e
    have h := errorResponseBasics env e
    exact ⟨h.1, h.2.1, h.2.2.1, by rw [h.2.2.2.1]; rfl, by rw [h.2.2.2.2]; rfl⟩
  · intro rows ha hr ht
    subst ha ht
    simp [GET, hr, healthyResponse]

/-- C5 witness: a failing acquisition is converted into the 503 error
response, and with all three steps succeeding the handler returns the
200 healthy response. -/
theorem C5_witness :
    GET ⟨some "production", some "postgres://h/db", "2026-01-01T00:00:00.000Z"⟩
        (.error ⟨some "boom", none⟩) (some 5) (.ok ()) (.ok []) =
      errorResponse ⟨some "production", some "postgres://h/db", "2026-01-01T00:00:00.000Z"⟩
        ⟨some "boom", none⟩ ∧
    (errorResponse ⟨some "production", some "postgres://h/db", "2026-01-01T00:00:00.000Z"⟩
        ⟨some "boom", none⟩).status = 503 ∧
    GET ⟨some "production", some "postgres://h/db", "2026-01-01T00:00:00.000Z"⟩
        (.ok ()) (some 5) (.ok ()) (.ok [true]) =
      healthyResponse
        ⟨some "production", some "postgres://h/db", "2026-01-01T00:00:00.000Z"⟩ [true] ∧
    (GET ⟨some "production", some "postgres://h/db", "2026-01-01T00:00:00.000Z"⟩
        (.ok ()) (some 5) (.ok ()) (.ok [true])).status = 200 :=
  ⟨(C5_handler_never_raises
      ⟨some "production", some "postgres://h/db", "2026-01-01T00:00:00.000Z"⟩
      (.error ⟨some "boom", none⟩) (some 5) (.ok ()) (.ok [])).1
      ⟨some "boom", none⟩ rfl,
   ((C5_handler_never_raises
      ⟨some "production", some "postgres://h/db", "2026-01-01T00:00:00.000Z"⟩
      (.error ⟨some "boom", none⟩) (some 5) (.ok ()) (.ok [])).2.2.2.1
      ⟨some "boom", none⟩).1,
   ((C5_handler_never_raises
      ⟨some "production", some "postgres://h/db", "2026-01-01T00:00:00.000Z"⟩
      (.ok ()) (some 5) (.ok ()) (.ok [true])).2.2.2.2 [true] rfl rfl rfl).1,
   ((C5_handler_never_raises
      ⟨some "production", some "postgres://h/db", "2026-01-01T00:00:00.000Z"⟩
      (.ok ()) (some 5) (.ok ()) (.ok [true])).2.2.2.2 [true] rfl rfl rfl).2⟩

/-- C6: when the liveness query does not settle within the 10000 ms
bound, the timeout rejection wins the race and the handler answers 503
with database `disconnected` and the `Connection timeout` message —
regardless of the outcome the query would eventually have had, since
the race only stops waiting and never cancels it. -/
theorem C6_timeout_yields_503
    (env : HealthEnv) (queryTime : Option Nat) (queryResult : Except JsError Unit)
    (tableResult : Except JsError (List Bool))
    (hqt : ∀ t, queryTime = some t → 10000 ≤ t) :
    (GET env (.ok ()) queryTime queryResult tableResult).status = 503 ∧
    (GET env (.ok ()) queryTime queryResult tableResult).body.database = "disconnected" ∧
    (GET env (.ok ()) queryTime queryResult tableResult).body.error =
      some "Connection timeout" := by
  have hrace : raceWithTimeout queryTime queryResult =
      .error ⟨some "Connection timeout", none⟩ := by
    cases queryTime with
    | none => rfl
    | some t =>
      have := hqt t rfl
      simp only [raceWithTimeout, if_neg (by omega : ¬t < 10000)]
  simp [GET, hrace, errorResponse, jsTruthy, jsOr,
    show ("Connection timeout" : String).isEmpty = false from rfl]

/-- C6 witness: a query settling exactly at the bound — and
successfully — is still reported as a timeout. -/
theorem C6_witness :
    (GET ⟨none, some "postgres://h/db", "ts"⟩ (.ok ()) (some 10000) (.ok ())
        (.ok [true])).status = 503 ∧
    (GET ⟨none, some "postgres://h/db", "ts"⟩ (.ok ()) (some 10000) (.ok ())
        (.ok [true])).body.database = "disconnected" ∧
    (GET ⟨none, some "postgres://h/db", "ts"⟩ (.ok ()) (some 10000) (.ok ())
        (.ok [true])).body.error = some "Connection timeout" :=
  C6_timeout_yields_503 ⟨none, some "postgres://h/db", "ts"⟩ (some 10000)
    (.ok ()) (.ok [true]) (fun t ht => by injection ht with h; omega)

/-- C7: a liveness query that succeeds within the timeout yields the
200 healthy response even when the metadata query reports the
`client_users` table absent; the absence only shows up as
`tables.client_users = "missing"`. -/
theorem C7_missing_table_stays_healthy
    (env : HealthEnv) (t : Nat) (rows : List Bool)
    (ht : t < 10000) (hrows : rows.head?.getD false = false) :
    (GET env (.ok ()) (some t) (.ok ()) (.ok rows)).status = 200 ∧
    (GET env (.ok ()) (some t) (.ok ()) (.ok rows)).body.status = "healthy" ∧
    (GET env (.ok ()) (some t) (.ok ()) (.ok rows)).body.database = "connected" ∧
    (GET env (.ok ()) (some t) (.ok ()) (.ok rows)).body.tables = some "missing" := by
  simp [GET, raceWithTimeout, ht, healthyResponse, hrows]

/-- C7 witness: the metadata query answering `exists = false` leaves
the response healthy and marks the table missing. -/
theorem C7_witness :
    (GET ⟨none, some "postgres://h/db", "ts"⟩ (.ok ()) (some 3) (.ok ())
        (.ok [false])).status = 200 ∧
    (GET ⟨none, some "postgres://h/db", "ts"⟩ (.ok ()) (some 3) (.ok ())
        (.ok [false])).body.status = "healthy" ∧
    (GET ⟨none, some "postgres://h/db", "ts"⟩ (.ok ()) (some 3) (.ok ())
        (.ok [false])).body.database = "connected" ∧
    (GET ⟨none, some "postgres://h/db", "ts"⟩ (.ok ()) (some 3) (.ok ())
        (.ok [false])).body.tables = some "missing" :=
  C7_missing_table_stays_healthy ⟨none, some "postgres://h/db", "ts"⟩ 3 [false]
    (by omega) rfl

/-- C8 counterexample: an error carrying the backend code `P9999` —
the `unknown` category — is echoed in `prismaCode` but gets NO
suggestion field, refuting the spec's statement that a suggestion is
attached per category including `unknown`. -/
theorem C8_counterexample :
    (GET ⟨some "production", some "postgres://h/db", "ts"⟩
        (.error ⟨some "boom", some "P9999"⟩) none (.ok ()) (.ok [])).status = 503 ∧
    (GET ⟨some "production", some "postgres://h/db", "ts"⟩
        (.error ⟨some "boom", some "P9999"⟩) none (.ok ()) (.ok [])).body.prismaCode =
      some "P9999" ∧
    (GET ⟨some "production", some "postgres://h/db", "ts"⟩
        (.error ⟨some "boom", some "P9999"⟩) none (.ok ()) (.ok [])).body.suggestion =
      none := by
  refine ⟨rfl, rfl, rfl⟩

/-- C8 (amended): a caught error with a truthy backend code is echoed
in `prismaCode`; the connectivity suggestion is attached exactly for
codes `P1001` and `P1017`, the credentials suggestion exactly for
`P1000`, and errors with any other code get no suggestion field. -/
theorem C8_known_code_suggestions
    (env : HealthEnv) (msg : Option String) (c : String) (t : Nat)
    (tableResult : Except JsError (List Bool))
    (hc : c.isEmpty = false) (ht : t < 10000) :
    (GET env (.ok ()) (some t) (.error ⟨msg, some c⟩) tableResult).status = 503 ∧
    (GET env (.ok ()) (some t) (.error ⟨msg, some c⟩) tableResult).body.prismaCode =
      some c ∧
    (GET env (.ok ()) (some t) (.error ⟨msg, some c⟩) tableResult).body.suggestion =
      (if c == "P1001" || c == "P1017" then some connectivitySuggestion
       else if c == "P1000" then some credentialsSuggestion
       else none) := by
  have hrace : raceWithTimeout (some t) (.error ⟨msg, some c⟩) =
      .error ⟨msg, some c⟩ := by
    simp [raceWithTimeout, ht]
  simp [GET, hrace, errorResponse, jsTruthy, hc]

/-- C8 witness: a `P1001` (server unreachable) error receives the
connectivity suggestion and is echoed in `prismaCode`. -/
theorem C8_witness :
    (GET ⟨none, some "postgres://h/db", "ts"⟩ (.ok ()) (some 2)
        (.error ⟨some "unreachable", some "P1001"⟩) (.ok [])).status = 503 ∧
    (GET ⟨none, some "postgres://h/db", "ts"⟩ (.ok ()) (some 2)
        (.error ⟨some "unreachable", some "P1001"⟩) (.ok [])).body.prismaCode =
      some "P1001" ∧
    (GET ⟨none, some "postgres://h/db", "ts"⟩ (.ok ()) (some 2)
        (.error ⟨some "unreachable", some "P1001"⟩) (.ok [])).body.suggestion =
      some connectivitySuggestion :=
  C8_known_code_suggestions ⟨none, some "postgres://h/db", "ts"⟩
    (some "unreachable") "P1001" 2 (.ok []) (by decide) (by omega)

/-- C9: a health request made with `DATABASE_URL` unset and a cold
cache is answered with 503; the configuration error raised by the lazy
client acquisition is caught by the handler and surfaced in the body's
`error` field, whose text contains the string `DATABASE_URL
environment variable is not set`. -/
theorem C9_unset_url_gives_503_with_error
    (env : HealthEnv) (g : GlobalState) (sqliteOk pgOk : Bool)
    (queryTime : Option Nat) (queryResult : Except JsError Unit)
    (tableResult : Except JsError (List Bool))
    (hdb : env.databaseUrl = none) (hc : g.prismaCache = none) :
    (healthEndpoint env g sqliteOk pgOk queryTime queryResult tableResult).1.status =
      503 ∧
    (healthEndpoint env g sqliteOk pgOk queryTime queryResult tableResult).1.body.status =
      "unhealthy" ∧
    ∃ pre post,
      (healthEndpoint env g sqliteOk pgOk queryTime queryResult
          tableResult).1.body.error =
        some (pre ++ "DATABASE_URL environment variable is not set" ++ post) := by
  have hmsg : jsOr (some notSetMsg) "undefined" = notSetMsg := by
    simp [jsOr, show notSetMsg.isEmpty = false by decide]
  have hacq : proxyGet env.databaseUrl env.nodeEnv sqliteOk pgOk g =
      (.error ⟨some ("Failed to initialize database connection: " ++ notSetMsg),
        none⟩, g) := by
    simp [proxyGet, getPrismaClient, hdb, hc, hmsg]
  have hbig : ("Failed to initialize database connection: " ++ notSetMsg).isEmpty =
      false := by decide
  refine ⟨?_, ?_, "Failed to initialize database connection: ",
    ". Please add it to your .env file.", ?_⟩
  · simp [healthEndpoint, hacq, errorResponse, jsTruthy]
  · simp [healthEndpoint, hacq, errorResponse, jsTruthy]
  · simp [healthEndpoint, hacq, errorResponse, jsTruthy, jsOr, hbig]
    decide

/-- C9 witness: the concrete unset-environment request. -/
theorem C9_witness :
    (healthEndpoint ⟨some "production", none, "ts"⟩ ⟨none, 0⟩ true true
        (some 1) (.ok ()) (.ok [true])).1.status = 503 ∧
    (healthEndpoint ⟨some "production", none, "ts"⟩ ⟨none, 0⟩ true true
        (some 1) (.ok ()) (.ok [true])).1.body.status = "unhealthy" ∧
    ∃ pre post,
      (healthEndpoint ⟨some "production", none, "ts"⟩ ⟨none, 0⟩ true true
          (some 1) (.ok ()) (.ok [true])).1.body.error =
        some (pre ++ "DATABASE_URL environment variable is not set" ++ post) :=
  C9_unset_url_gives_503_with_error ⟨some "production", none, "ts"⟩ ⟨none, 0⟩
    true true (some 1) (.ok ()) (.ok [true]) rfl rfl

/-! ## Claims about the Neon-variant provider (`src/lib/prisma.ts`) -/

/-- Pointwise-equal predicates give equal `any` results. -/
theorem anyEqOfFn {α : Type} (p q : α → Bool) (l : List α)
    (h : ∀ a, p a = q a) : l.any p = l.any q := by
  induction l with
  | nil => rfl
  | cons a l ih => simp [List.any_cons, h a, ih]

/-- Deleting a parameter removes every occurrence of its name. -/
theorem hasParamDeleteSelf (u : UrlObj) (k : String) :
    hasParam (deleteParam u k) k = false := by
  simp only [hasParam, deleteParam, List.any_filter]
  rw [show (fun p : String × String => p.1 != k && (p.1 == k)) =
      (fun _ => false) from funext fun a => by cases h : a.1 == k <;> simp [bne, h]]
  simp

/-- Deleting one parameter name leaves the presence of another name
unchanged. -/
theorem hasParamDeleteOther (u : UrlObj) (k k' : String)
    (h : (k == k') = false) :
    hasParam (deleteParam u k') k = hasParam u k := by
  simp only [hasParam, deleteParam, List.any_filter]
  refine anyEqOfFn _ _ _ fun a => ?_
  cases hk : a.1 == k
  · simp [hk]
  · have h2 : (a.1 == k') = false := by
      rw [show a.1 = k from eq_of_beq hk]
      exact h
    simp [bne, hk, h2]

/-- An appended parameter is present. -/
theorem hasParamAppendSelf (u : UrlObj) (k v : String) :
    hasParam (appendParam u k v) k = true := by
  simp [hasParam, appendParam]

/-- Appending one parameter name leaves the presence of another name
unchanged. -/
theorem hasParamAppendOther (u : UrlObj) (k k' v : String)
    (h : (k == k') = false) :
    hasParam (appendParam u k' v) k = hasParam u k := by
  have h2 : (k' == k) = false := by
    rw [beq_eq_false_iff_ne] at h ⊢
    exact fun e => h e.symm
  simp [hasParam, appendParam, h2]

/-- C10: the Neon-variant provider rewrites the connection string
before constructing the client.  For a `DATABASE_URL` the platform
`URL` parser accepts, the provider re-serializes it with `sslmode`
guaranteed present (appending `sslmode=require` when it was absent) and
every `channel_binding` parameter deleted; when parsing fails it falls
back to the two-regex removal of `channel_binding` alone, leaving
strings that never mention `channel_binding` untouched. -/
theorem C10_neon_url_rewrite
    (s : String) (parse : String → Option UrlObj) (hs : s.isEmpty = false) :
    (∀ u, parse (jsTrim s) = some u →
      ∃ u', getDatabaseUrl (some s) parse = .ok (urlToString u') ∧
        hasParam u' "sslmode" = true ∧
        hasParam u' "channel_binding" = false ∧
        (hasParam u "sslmode" = false → ("sslmode", "require") ∈ u'.params)) ∧
    (parse (jsTrim s) = none →
      getDatabaseUrl (some s) parse =
        .ok (if hasSubstr "channel_binding".data (jsTrim s).data
             then regexCleanup (jsTrim s) else jsTrim s)) := by
  constructor
  · intro u hu
    by_cases hss : hasParam u "sslmode"
    · by_cases hcb : hasParam u "channel_binding"
      · refine ⟨deleteParam u "channel_binding", ?_, ?_, ?_, ?_⟩
        · simp [getDatabaseUrl, hs, hu, hss, hcb]
        · rw [hasParamDeleteOther u "sslmode" "channel_binding" (by decide)]
          exact hss
        · exact hasParamDeleteSelf u "channel_binding"
        · intro hcontra
          rw [hss] at hcontra
          exact absurd hcontra (by simp)
      · refine ⟨u, ?_, hss, by simpa using hcb, ?_⟩
        · simp [getDatabaseUrl, hs, hu, hss, hcb]
        · intro hcontra
          rw [hss] at hcontra
          exact absurd hcontra (by simp)
    · have hss' : hasParam u "sslmode" = false := by simpa using hss
      have hcb1 : hasParam (appendParam u "sslmode" "require") "channel_binding" =
          hasParam u "channel_binding" :=
        hasParamAppendOther u "channel_binding" "sslmode" "require" (by decide)
      by_cases hcb : hasParam u "channel_binding"
      · refine ⟨deleteParam (appendParam u "sslmode" "require") "channel_binding",
          ?_, ?_, ?_, ?_⟩
        · simp [getDatabaseUrl, hs, hu, hss', hcb1, hcb]
        · rw [hasParamDeleteOther _ "sslmode" "channel_binding" (by decide)]
          exact hasParamAppendSelf u "sslmode" "require"
        · exact hasParamDeleteSelf _ "channel_binding"
        · intro _
          simp [deleteParam, appendParam, List.mem_filter]
      · refine ⟨appendParam u "sslmode" "require", ?_,
          hasParamAppendSelf u "sslmode" "require", by rw [hcb1]; simpa using hcb, ?_⟩
        · simp [getDatabaseUrl, hs, hu, hss', hcb1, hcb]
        · intro _
          simp [appendParam]
  · intro hu
    simp only [getDatabaseUrl, hs, Bool.false_eq_true, if_false, hu]
    split <;> rfl

/-- C10 witness: a URL carrying only `channel_binding=require` comes
back re-serialized with the parameter deleted and `sslmode=require`
appended. -/
theorem C10_witness :
    ∃ u', getDatabaseUrl (some "postgres://h/db?channel_binding=require")
        (fun _ => some ⟨"postgres://h/db", [("channel_binding", "require")]⟩) =
        .ok (urlToString u') ∧
      hasParam u' "sslmode" = true ∧
      hasParam u' "channel_binding" = false ∧
      (hasParam ⟨"postgres://h/db", [("channel_binding", "require")]⟩ "sslmode" = false →
        ("sslmode", "require") ∈ u'.params) :=
  (C10_neon_url_rewrite "postgres://h/db?channel_binding=require"
      (fun _ => some ⟨"postgres://h/db", [("channel_binding", "require")]⟩)
      (by decide)).1 ⟨"postgres://h/db", [("channel_binding", "require")]⟩ rfl

end LivePce
